import Mathlib

/-!
Verification of the Vertica Dify plugin query tools.

This file gives a shallow embedding of the two core tools of the
repository, `src/tools/execute_query.py` (`ExecuteQueryTool`) and
`src/tools/stream_query.py` (`StreamQueryTool`), and proves properties
of them.

Modelling conventions:
* Python strings are Lean `String`s; the Python string methods used by
  the source (`strip`, `upper`, `lower`, `startswith`, substring `in`,
  `int(...)` parsing) are modelled by the `py*` functions below, which
  operate structurally on the character list.
* The credential mapping (a Python dict of strings) is a function
  `String → Option String`; `dict.get k` is application, `dict.get k d`
  is `(credentials k).getD d`.
* The database driver (`vertica_python`) is replaced by an oracle record
  describing the outcome of this run: whether `connect` succeeds, the
  total number of rows the base query yields, the cursor's column names,
  and an optional fetch index at which `cursor.execute` raises.  For the
  streaming tool the table is abstracted to its row count: executing
  `"<sql> LIMIT bs OFFSET off"` over a table of `N` rows returns
  `min bs (N - off)` rows.
* Python exceptions are `Except String`; the broad `except Exception`
  handler at each tool boundary is the outer `match` in `_invoke`.
* The `executed_at` wall-clock timestamp is omitted from envelopes
  (no property depends on it).
-/

/-- Model of Python `str.strip()`: drop whitespace from both ends. -/
def pyStrip (s : String) : String :=
  ⟨((s.toList.dropWhile Char.isWhitespace).reverse.dropWhile Char.isWhitespace).reverse⟩

/-- Model of Python `str.upper()` (ASCII case mapping). -/
def pyUpper (s : String) : String :=
  ⟨s.toList.map Char.toUpper⟩

/-- Model of Python `str.lower()` (ASCII case mapping). -/
def pyLower (s : String) : String :=
  ⟨s.toList.map Char.toLower⟩

/-- Model of Python `str.startswith(p)`. -/
def pyStartsWith (s p : String) : Bool :=
  p.toList.isPrefixOf s.toList

/-- Helper for `pyIn`: does `needle` occur as a contiguous run in `hay`? -/
def py_in_chars (needle : List Char) : List Char → Bool
  | [] => needle.isEmpty
  | c :: rest => needle.isPrefixOf (c :: rest) || py_in_chars needle rest

/-- Model of the Python substring test `needle in hay`. -/
def pyIn (needle hay : String) : Bool :=
  py_in_chars needle.toList hay.toList

/-- Digit-run parser underlying `pyInt`. -/
def py_digits_to_nat : List Char → Nat → Option Nat
  | [], acc => some acc
  | c :: rest, acc =>
      if c.isDigit then py_digits_to_nat rest (10 * acc + (c.toNat - 48)) else none

/-- Model of Python `int(s)` on a string argument: optional leading minus
sign and a non-empty digit run, after stripping surrounding whitespace.
(Further Python niceties such as a leading plus sign or underscore
separators are not modelled; no property depends on them.) -/
def pyInt (s : String) : Option Int :=
  match (pyStrip s).toList with
  | [] => none
  | '-' :: rest =>
      if rest.isEmpty then none
      else (py_digits_to_nat rest 0).map (fun n => -(n : Int))
  | cs => (py_digits_to_nat cs 0).map (fun n => (n : Int))

/-- Model of `int(credentials.get(key, default))` where `default` is
already an integer: absent key yields the default, a present key is
parsed by `pyInt` and raises `ValueError` on failure. -/
def pyIntField (credentials : String → Option String) (key : String) (dflt : Int) :
    Except String Int :=
  match credentials key with
  | none => .ok dflt
  | some s =>
      match pyInt s with
      | some n => .ok n
      | none => .error ("invalid literal for int() with base 10: \x27" ++ s ++ "\x27")

/-- Bookkeeping for the connection lifetime of one tool run: whether the
local `connection` variable currently holds a connection object, how many
times `vertica_python.connect` succeeded, and how many times `close` ran. -/
structure SessionState where
  conn : Bool
  connects : Nat
  closes : Nat
  deriving DecidableEq

/-- The session state of a run that never reached the connect call. -/
def noSession : SessionState := { conn := false, connects := 0, closes := 0 }

/-- Model of the `finally:` block shared by both tools:
`if connection: connection.close()`. -/
def closeIfOpen (s : SessionState) : SessionState :=
  if s.conn then { s with closes := s.closes + 1 } else s

/-- A database row, abstracted to its list of rendered values. -/
abbrev Row := List String

/-- One emitted batch of the streaming tool, with the rows abstracted to
their count (`batch_size` is `len(rows)` of this batch). -/
structure Batch where
  batch_number : Nat
  batch_size : Nat
  total_fetched : Nat
  has_more : Bool
  deriving DecidableEq

/-- Success payload of a JSON envelope: either the eager execute result
(`data`, `row_count`, `fields`, `command`) or one streamed batch
(`batch`, `batch_number`, `batch_size`, `total_fetched`, `has_more`,
`fields`). -/
inductive Payload where
  | exec (rows : List Row) (row_count : Nat) (fields : List String) (command : String)
  | stream (batch_number : Nat) (batch_size : Nat) (total_fetched : Nat)
      (has_more : Bool) (fields : List String)
  deriving DecidableEq

/-- A JSON response envelope.  `data` is the success payload; exactly one
of `data` and `error` is expected to be populated. -/
structure JsonEnv where
  success : Bool
  data : Option Payload
  error : Option String
  query : String
  deriving DecidableEq

/-- One message yielded by a tool invocation: a plain text message
(`create_text_message`) or a JSON envelope (`create_json_message`). -/
inductive Msg where
  | text (s : String)
  | json (e : JsonEnv)
  deriving DecidableEq

/-- The failure envelope built in each tool's `except` block:
`success=False`, the exception message, and the raw (unstripped) `sql`
request parameter. -/
def error_envelope (e : String) (raw_sql : String) : Msg :=
  .json { success := false, data := none, error := some e, query := raw_sql }

/-- Envelope well-formedness: a JSON envelope populates exactly one of
the success payload and usercode `error` field; plain text messages are
not envelopes and are unconstrained. -/
def envOk : Msg → Bool
  | .text _ => true
  | .json e =>
      (e.success && e.error.isNone && e.data.isSome) ||
        (!e.success && e.error.isSome && e.data.isNone)

namespace ExecuteQueryTool

/-- Connection configuration built by `ExecuteQueryTool._build_config`. -/
structure Config where
  host : Option String
  port : Int
  database : Option String
  user : Option String
  password : String
  readonly_mode : Bool
  connection_limit : Int
  query_timeout : Int
  ssl : Bool
  default_schema : String
  deriving DecidableEq

/-- `ExecuteQueryTool._build_config`: builds the configuration dict from
credentials.  Absent keys fall back to defaults; `host`, `database` and
`user` are read with plain `.get` and may be absent (`none`).  The only
failures are the `int(...)` parses of port, connection limit and query
timeout, in the order the dict literal evaluates them. -/
def _build_config (credentials : String → Option String) : Except String Config :=
  match pyIntField credentials "vertica_port" 5433 with
  | .error e => .error e
  | .ok port =>
    match pyIntField credentials "vertica_connection_limit" 10 with
    | .error e => .error e
    | .ok connection_limit =>
      match pyIntField credentials "vertica_query_timeout" 60000 with
      | .error e => .error e
      | .ok query_timeout =>
        .ok { host := credentials "vertica_host"
              port := port
              database := credentials "vertica_database"
              user := credentials "vertica_user"
              password := (credentials "vertica_password").getD ""
              readonly_mode :=
                pyLower ((credentials "vertica_readonly_mode").getD "true") == "true"
              connection_limit := connection_limit
              query_timeout := query_timeout
              ssl := pyLower ((credentials "vertica_ssl").getD "false") == "true"
              default_schema := (credentials "vertica_default_schema").getD "public" }

/-- The allowed leading keywords in readonly mode. -/
def readonly_prefixes : List String := ["SELECT", "SHOW", "DESCRIBE", "EXPLAIN", "WITH"]

/-- The message of the `ValueError` raised on a readonly violation; it
names the allowed leading keywords. -/
def readonly_violation_msg : String :=
  "Only readonly queries are allowed (readonly mode is enabled). " ++
    "Query must start with: " ++ String.intercalate ", " readonly_prefixes ++
    ". To allow all queries, set vertica_readonly_mode to \x27false\x27."

/-- `ExecuteQueryTool._validate_readonly_query`: no-op unless readonly
mode is on; otherwise accept exactly the statements whose stripped,
uppercased text starts with one of `readonly_prefixes`. -/
def _validate_readonly_query (sql : String) (config : Config) : Except String Unit :=
  if config.readonly_mode then
    let trimmed_sql := pyUpper (pyStrip sql)
    let is_readonly := readonly_prefixes.any (fun p => pyStartsWith trimmed_sql p)
    if is_readonly then .ok () else .error readonly_violation_msg
  else .ok ()

/-- `ExecuteQueryTool._get_command_type`: the if/elif chain mapping the
leading keyword of the stripped, uppercased statement to a command verb. -/
def _get_command_type (sql : String) : String :=
  let sql_upper := pyUpper (pyStrip sql)
  if pyStartsWith sql_upper "SELECT" then "SELECT"
  else if pyStartsWith sql_upper "INSERT" then "INSERT"
  else if pyStartsWith sql_upper "UPDATE" then "UPDATE"
  else if pyStartsWith sql_upper "DELETE" then "DELETE"
  else if pyStartsWith sql_upper "CREATE" then "CREATE"
  else if pyStartsWith sql_upper "DROP" then "DROP"
  else if pyStartsWith sql_upper "ALTER" then "ALTER"
  else if pyStartsWith sql_upper "SHOW" then "SHOW"
  else if pyStartsWith sql_upper "DESCRIBE" then "DESCRIBE"
  else if pyStartsWith sql_upper "EXPLAIN" then "EXPLAIN"
  else "UNKNOWN"

/-- The command verbs `_get_command_type` can produce. -/
def command_verbs : List String :=
  ["SELECT", "INSERT", "UPDATE", "DELETE", "CREATE", "DROP", "ALTER",
   "SHOW", "DESCRIBE", "EXPLAIN", "UNKNOWN"]

/-- The `conn_params` dict handed to `vertica_python.connect`.
`connection_timeout` is `query_timeout // 1000` (Python floor division). -/
structure ConnParams where
  host : Option String
  port : Int
  database : Option String
  user : Option String
  password : String
  connection_timeout : Int
  ssl : Bool
  deriving DecidableEq

/-- Construction of `conn_params` from the configuration. -/
def _conn_params (config : Config) : ConnParams :=
  { host := config.host
    port := config.port
    database := config.database
    user := config.user
    password := config.password
    connection_timeout := Int.fdiv config.query_timeout 1000
    ssl := config.ssl }

/-- Oracle for one run of the eager tool against the driver: whether
`connect` succeeds, and the outcome of `cursor.execute` + `fetchall`
(rows and cursor column names, or the raised error's message). -/
structure ExecDb where
  connectOk : Bool
  queryResult : Except String (List Row × List String)

/-- Normalized result record returned by `_execute_query` on success. -/
structure QueryResultRec where
  rows : List Row
  row_count : Nat
  fields : List String
  command : String
  deriving DecidableEq

/-- `ExecuteQueryTool._execute_query`: connect inside a `try`, run the
statement, build the result record; the `finally` block closes the
connection if (and only if) one was obtained. -/
def _execute_query (sql : String) (params : List String) (db : ExecDb) (config : Config) :
    SessionState × Except String QueryResultRec :=
  let _cp := _conn_params config
  let _ps := params
  if db.connectOk then
    let opened : SessionState := { conn := true, connects := 1, closes := 0 }
    match db.queryResult with
    | .ok qr =>
        (closeIfOpen opened,
          .ok { rows := qr.1, row_count := qr.1.length, fields := qr.2,
                command := _get_command_type sql })
    | .error e => (closeIfOpen opened, .error e)
  else
    (closeIfOpen noSession, .error "connection error")

/-- `ExecuteQueryTool._format_result`: the success envelope. -/
def _format_result (result : QueryResultRec) (sql : String) : JsonEnv :=
  { success := true
    data := some (.exec result.rows result.row_count result.fields result.command)
    error := none
    query := sql }

/-- `ExecuteQueryTool._invoke`: the tool boundary.  The outer `match`es
model the broad `except Exception` handler turning any raised error into
a failure envelope carrying the raw `sql` parameter. -/
def _invoke (credentials : String → Option String) (sql_param : Option String)
    (params : List String) (db : ExecDb) : List Msg × SessionState :=
  match _build_config credentials with
  | .error e => ([error_envelope e (sql_param.getD "")], noSession)
  | .ok config =>
    let sql := pyStrip (sql_param.getD "")
    if sql = "" then
      ([Msg.text "Error: SQL query is required"], noSession)
    else
      match _validate_readonly_query sql config with
      | .error e => ([error_envelope e (sql_param.getD "")], noSession)
      | .ok _ =>
        let r := _execute_query sql params db config
        match r.2 with
        | .ok result => ([Msg.json (_format_result result sql)], r.1)
        | .error e => ([error_envelope e (sql_param.getD "")], r.1)

end ExecuteQueryTool

namespace StreamQueryTool

/-- Connection configuration built by `StreamQueryTool._build_config`
(no connection limit and no default schema, unlike the eager tool). -/
structure Config where
  host : Option String
  port : Int
  database : Option String
  user : Option String
  password : String
  readonly_mode : Bool
  query_timeout : Int
  ssl : Bool
  deriving DecidableEq

/-- `StreamQueryTool._build_config`. -/
def _build_config (credentials : String → Option String) : Except String Config :=
  match pyIntField credentials "vertica_port" 5433 with
  | .error e => .error e
  | .ok port =>
    match pyIntField credentials "vertica_query_timeout" 60000 with
    | .error e => .error e
    | .ok query_timeout =>
      .ok { host := credentials "vertica_host"
            port := port
            database := credentials "vertica_database"
            user := credentials "vertica_user"
            password := (credentials "vertica_password").getD ""
            readonly_mode :=
              pyLower ((credentials "vertica_readonly_mode").getD "true") == "true"
            query_timeout := query_timeout
            ssl := pyLower ((credentials "vertica_ssl").getD "false") == "true" }

/-- The message of the `ValueError` raised when the statement already has
a pagination clause. -/
def stream_violation_msg : String :=
  "Query should not contain LIMIT or OFFSET clauses when using streamQuery. " ++
    "Use the batch_size and max_rows parameters instead."

/-- `StreamQueryTool._validate_query`: reject statements whose uppercased
text contains the space-delimited substring " LIMIT " or " OFFSET ". -/
def _validate_query (sql : String) : Except String Unit :=
  let sql_upper := pyUpper sql
  if pyIn " LIMIT " sql_upper || pyIn " OFFSET " sql_upper then
    .error stream_violation_msg
  else .ok ()

/-- The paginated statement text `f"\x7bsql\x7d LIMIT \x7bbatch_size\x7d OFFSET \x7boffset\x7d"`
sent on each round. -/
def limited_sql (sql : String) (batch_size offset : Nat) : String :=
  sql ++ " LIMIT " ++ toString batch_size ++ " OFFSET " ++ toString offset

/-- Oracle for one run of the streaming tool: whether `connect` succeeds,
the total row count of the base query (executing `limited_sql` over it
returns `min batch_size (tableRows - offset)` rows), the cursor column
names, and an optional 1-based fetch index at which `cursor.execute`
raises. -/
structure StreamDb where
  connectOk : Bool
  tableRows : Nat
  columns : List String
  failAtFetch : Option Nat
  deriving DecidableEq

/-- The `while True` fetch loop of `StreamQueryTool._stream_query`,
with an explicit fuel argument (the loop provably makes progress, and
`_stream_query` passes fuel `tableRows + 1`, which is never exhausted).
Returns the batches yielded before termination and, when the oracle
raised mid-loop, the error message that escapes the generator. -/
def _stream_loop (N bs : Nat) (mr : Option Nat) (failAt : Option Nat) :
    Nat → Nat → Nat → Nat → Nat → List Batch × Option String
  | 0, _, _, _, _ => ([], none)
  | fuel + 1, fetch_idx, offset, bn, total =>
    if failAt = some fetch_idx then ([], some "query error")
    else
      let n := min bs (N - offset)
      if n = 0 then ([], none)
      else
        let total' := total + n
        let has_more := (n == bs) &&
          (match mr with | none => true | some m => decide (total' < m))
        let b : Batch :=
          { batch_number := bn + 1, batch_size := n, total_fetched := total',
            has_more := has_more }
        let stop := !has_more ||
          (match mr with | none => false | some m => decide (m ≤ total'))
        if stop then ([b], none)
        else
          let rest := _stream_loop N bs mr failAt fuel (fetch_idx + 1) (offset + bs) (bn + 1) total'
          (b :: rest.1, rest.2)

/-- `StreamQueryTool._stream_query`: connect inside a `try`, drive the
fetch loop from offset 0, and close the connection in the `finally`
block on every exit (exhaustion, row-limit stop, or mid-fetch error). -/
def _stream_query (sql : String) (bs : Nat) (mr : Option Nat) (db : StreamDb)
    (config : Config) : SessionState × List Batch × Option String :=
  let _cp : Option String := config.host
  let _sq : String := sql
  if db.connectOk then
    let opened : SessionState := { conn := true, connects := 1, closes := 0 }
    let r := _stream_loop db.tableRows bs mr db.failAtFetch (db.tableRows + 1) 1 0 0 0
    (closeIfOpen opened, r.1, r.2)
  else
    (closeIfOpen noSession, [], some "connection error")

/-- The per-batch success envelope yielded by the streaming loop. -/
def batch_message (sql : String) (cols : List String) (b : Batch) : Msg :=
  .json { success := true
          data := some (.stream b.batch_number b.batch_size b.total_fetched b.has_more cols)
          error := none
          query := sql }

/-- `StreamQueryTool._invoke`: the tool boundary.  `batch_size` is
clamped to `[1, 10000]`, `max_rows` (when given) to at least 1, both
before the empty-`sql` check, as in the source; batches yielded before a
mid-stream error are followed by the failure envelope produced by the
`except` handler. -/
def _invoke (credentials : String → Option String) (sql_param : Option String)
    (batch_size_param max_rows_param : Option Int) (db : StreamDb) :
    List Msg × SessionState :=
  match _build_config credentials with
  | .error e => ([error_envelope e (sql_param.getD "")], noSession)
  | .ok config =>
    let sql := pyStrip (sql_param.getD "")
    let batch_size := min (max (batch_size_param.getD 1000) 1) 10000
    let max_rows := max_rows_param.map (fun m => max m 1)
    if sql = "" then
      ([Msg.text "Error: SQL query is required"], noSession)
    else
      match _validate_query sql with
      | .error e => ([error_envelope e (sql_param.getD "")], noSession)
      | .ok _ =>
        let r := _stream_query sql batch_size.toNat (max_rows.map Int.toNat) db config
        (r.2.1.map (batch_message sql db.columns) ++
          (match r.2.2 with
           | some e => [error_envelope e (sql_param.getD "")]
           | none => []), r.1)

end StreamQueryTool

/-! ## Shared concrete fixtures -/

/-- The configuration `ExecuteQueryTool._build_config` produces from an
empty credential mapping (all defaults, missing host/database/user). -/
def execCfgDefault : ExecuteQueryTool.Config :=
  { host := none, port := 5433, database := none, user := none, password := "",
    readonly_mode := true, connection_limit := 10, query_timeout := 60000,
    ssl := false, default_schema := "public" }

/-- The configuration `StreamQueryTool._build_config` produces from an
empty credential mapping. -/
def streamCfgDefault : StreamQueryTool.Config :=
  { host := none, port := 5433, database := none, user := none, password := "",
    readonly_mode := true, query_timeout := 60000, ssl := false }

/-! ## C1 -/

/-- C1 counterexample: with every credential key absent (in particular
host, database and user), `_build_config` does not fail; it returns a
configuration whose host, database and user are `none`.  The claim that
it fails with a `ConfigError` is therefore false. -/
theorem build_config_absent_keys_no_error :
    ((fun _ => none : String → Option String) "vertica_host" = none) ∧
      ExecuteQueryTool._build_config (fun _ => none) = .ok execCfgDefault ∧
      StreamQueryTool._build_config (fun _ => none) = .ok streamCfgDefault :=
  ⟨rfl, rfl, rfl⟩

/-- C1 (amended): `_build_config` performs no presence validation.  For
every credential mapping in which the host, database and user keys are
absent and the three integer-valued keys are absent or parse — that is,
each of the `int(...)` reads succeeds, which by definition of
`pyIntField` happens exactly when the key is absent (the default
applies) or its value parses as an integer — both tools' `_build_config`
succeed and return a configuration whose host, database and user fields
are all `none`. -/
theorem build_config_missing_fields_are_none
    (creds : String → Option String)
    (hp : ∃ n, pyIntField creds "vertica_port" 5433 = .ok n)
    (hl : ∃ n, pyIntField creds "vertica_connection_limit" 10 = .ok n)
    (ht : ∃ n, pyIntField creds "vertica_query_timeout" 60000 = .ok n)
    (hh : creds "vertica_host" = none)
    (hd : creds "vertica_database" = none)
    (hu : creds "vertica_user" = none) :
    (∃ cfg, ExecuteQueryTool._build_config creds = .ok cfg ∧
      cfg.host = none ∧ cfg.database = none ∧ cfg.user = none) ∧
    (∃ cfg, StreamQueryTool._build_config creds = .ok cfg ∧
      cfg.host = none ∧ cfg.database = none ∧ cfg.user = none) := by
  obtain ⟨p, hp⟩ := hp
  obtain ⟨l, hl⟩ := hl
  obtain ⟨t, ht⟩ := ht
  constructor
  · simp only [ExecuteQueryTool._build_config, hp, hl, ht]
    exact ⟨_, rfl, hh, hd, hu⟩
  · simp only [StreamQueryTool._build_config, hp, ht]
    exact ⟨_, rfl, hh, hd, hu⟩

/-- C1 witness: the amended statement at a credential mapping whose port
key is present and parses ("5433") while every other key — in particular
host, database and user — is absent. -/
theorem build_config_missing_fields_are_none_witness :
    (∃ cfg, ExecuteQueryTool._build_config
        (fun k => if k = "vertica_port" then some "5433" else none) = .ok cfg ∧
      cfg.host = none ∧ cfg.database = none ∧ cfg.user = none) ∧
    (∃ cfg, StreamQueryTool._build_config
        (fun k => if k = "vertica_port" then some "5433" else none) = .ok cfg ∧
      cfg.host = none ∧ cfg.database = none ∧ cfg.user = none) :=
  build_config_missing_fields_are_none
    (fun k => if k = "vertica_port" then some "5433" else none)
    ⟨5433, rfl⟩ ⟨10, rfl⟩ ⟨60000, rfl⟩ rfl rfl rfl

/-! ## C2 -/

/-- C2 counterexample: streaming a 2500-row table with `batch_size=1000`
and `max_rows=1500` emits batches of sizes [1000, 1000], not the claimed
[1000, 500]: the injected LIMIT is always `batch_size` and is never
trimmed to `max_rows - total_fetched`. -/
theorem stream_max_rows_batch_sizes_not_1000_500 :
    ((StreamQueryTool._stream_query "SELECT * FROM big" 1000 (some 1500)
        { connectOk := true, tableRows := 2500, columns := ["id"], failAtFetch := none }
        streamCfgDefault).2.1.map Batch.batch_size = [1000, 1000]) ∧
      [1000, 1000] ≠ ([1000, 500] : List Nat) :=
  ⟨rfl, by decide⟩

/-- C2 (amended): for a stream over a table of exactly 2500 rows with
`batch_size=1000` and `max_rows=1500`, `streamQuery` emits exactly 2
batches whose row counts are [1000, 1000] (overshooting `max_rows`, which
acts as a stopping threshold rather than an exact cap), with
`has_more=true` on batch 1 and `has_more=false` on batch 2 and a final
`total_fetched` of 2000, and then stops even though more rows remain in
the table. -/
theorem stream_max_rows_overshoot_batches :
    StreamQueryTool._invoke (fun _ => none) (some "SELECT * FROM big") (some 1000) (some 1500)
        { connectOk := true, tableRows := 2500, columns := ["id"], failAtFetch := none } =
      ([StreamQueryTool.batch_message "SELECT * FROM big" ["id"]
          { batch_number := 1, batch_size := 1000, total_fetched := 1000, has_more := true },
        StreamQueryTool.batch_message "SELECT * FROM big" ["id"]
          { batch_number := 2, batch_size := 1000, total_fetched := 2000, has_more := false }],
       { conn := true, connects := 1, closes := 1 }) :=
  rfl

/-! ## C6 -/

/-- C6: for a stream over a table of exactly 2500 rows with
`batch_size=1000` and `max_rows` unset, `streamQuery` emits exactly 3
batches with row counts [1000, 1000, 500], `has_more` values
[true, true, false], and a final `total_fetched` of 2500 (the session
being opened and closed exactly once). -/
theorem stream_2500_rows_three_batches :
    StreamQueryTool._invoke (fun _ => none) (some "SELECT * FROM big") (some 1000) none
        { connectOk := true, tableRows := 2500, columns := ["id"], failAtFetch := none } =
      ([StreamQueryTool.batch_message "SELECT * FROM big" ["id"]
          { batch_number := 1, batch_size := 1000, total_fetched := 1000, has_more := true },
        StreamQueryTool.batch_message "SELECT * FROM big" ["id"]
          { batch_number := 2, batch_size := 1000, total_fetched := 2000, has_more := true },
        StreamQueryTool.batch_message "SELECT * FROM big" ["id"]
          { batch_number := 3, batch_size := 500, total_fetched := 2500, has_more := false }],
       { conn := true, connects := 1, closes := 1 }) :=
  rfl

/-! ## C7 -/

/-- C7: `_get_command_type` is a total function on SQL strings (it is a
Lean function, hence deterministic and never failing) whose value always
lies in the command-verb enumeration, with unrecognized leading tokens
mapped to UNKNOWN; in particular it sends "SELECT 1" to SELECT,
"drop table x" to DROP, and "VACUUM" to UNKNOWN. -/
theorem classify_command_total_enum (sql : String) :
    ExecuteQueryTool._get_command_type sql ∈ ExecuteQueryTool.command_verbs ∧
      ExecuteQueryTool._get_command_type "SELECT 1" = "SELECT" ∧
      ExecuteQueryTool._get_command_type "drop table x" = "DROP" ∧
      ExecuteQueryTool._get_command_type "VACUUM" = "UNKNOWN" := by
  refine ⟨?_, rfl, rfl, rfl⟩
  simp only [ExecuteQueryTool._get_command_type, ExecuteQueryTool.command_verbs]
  split_ifs <;> simp

/-! ## C10 -/

/-- A credential mapping whose port value is not numeric. -/
def badPortCreds : String → Option String :=
  fun k => if k = "vertica_port" then some "abc" else none

/-- C10 counterexample: with an absent `sql` parameter but a credential
mapping whose `vertica_port` does not parse, `executeQuery` yields a JSON
failure envelope (the `int()` parse runs before the empty-`sql` check),
not the plain text message the claim requires. -/
theorem empty_sql_bad_port_yields_envelope :
    (ExecuteQueryTool._invoke badPortCreds none []
        { connectOk := true, queryResult := .ok ([], []) }).1 =
      [error_envelope "invalid literal for int() with base 10: \x27abc\x27" ""] ∧
    (ExecuteQueryTool._invoke badPortCreds none []
        { connectOk := true, queryResult := .ok ([], []) }).1 ≠
      [Msg.text "Error: SQL query is required"] :=
  ⟨rfl, by decide⟩

/-! ## C4 -/

/-- C4: when readonly mode is on, the guard rejects every statement whose
stripped, uppercased text starts with none of the allowed keywords, with
a message naming the allowed keywords (each occurs as a substring of the
message); the same statement passes unchanged when readonly mode is off. -/
theorem readonly_guard_rejects_and_passes (sql : String)
    (cfg cfg' : ExecuteQueryTool.Config)
    (hro : cfg.readonly_mode = true) (hro' : cfg'.readonly_mode = false)
    (h : ∀ p ∈ ExecuteQueryTool.readonly_prefixes,
      pyStartsWith (pyUpper (pyStrip sql)) p = false) :
    ExecuteQueryTool._validate_readonly_query sql cfg =
        .error ExecuteQueryTool.readonly_violation_msg ∧
      ExecuteQueryTool._validate_readonly_query sql cfg' = .ok () ∧
      ∀ p ∈ ExecuteQueryTool.readonly_prefixes,
        pyIn p ExecuteQueryTool.readonly_violation_msg = true := by
  refine ⟨?_, ?_, by decide⟩
  · have hany : ExecuteQueryTool.readonly_prefixes.any
        (fun p => pyStartsWith (pyUpper (pyStrip sql)) p) = false := by
      rw [List.any_eq_false]
      intro p hp
      simp [h p hp]
    simp only [ExecuteQueryTool._validate_readonly_query, hro, if_true]
    simp [hany]
  · simp only [ExecuteQueryTool._validate_readonly_query, hro']
    simp

/-- A copy of the default execute configuration with readonly mode off. -/
def execCfgRw : ExecuteQueryTool.Config :=
  { execCfgDefault with readonly_mode := false }

/-- C4 witness: the statement "DELETE FROM t" is rejected under the
readonly configuration and passes under the writable one. -/
theorem readonly_guard_rejects_and_passes_witness :
    ExecuteQueryTool._validate_readonly_query "DELETE FROM t" execCfgDefault =
        .error ExecuteQueryTool.readonly_violation_msg ∧
      ExecuteQueryTool._validate_readonly_query "DELETE FROM t" execCfgRw = .ok () ∧
      ∀ p ∈ ExecuteQueryTool.readonly_prefixes,
        pyIn p ExecuteQueryTool.readonly_violation_msg = true :=
  readonly_guard_rejects_and_passes "DELETE FROM t" execCfgDefault execCfgRw
    rfl rfl (by decide)

/-! ## C5 -/

/-- C5 counterexample: the SQL string "x LIMIT " (with a trailing space)
contains the whitespace-delimited substring " LIMIT ", yet streamQuery
opens a connection for it: the guard inspects the stripped statement, in
which the trailing delimiter is gone.  The claim that no connect occurs
for any such string is therefore false. -/
theorem stream_untrimmed_limit_connects :
    pyIn " LIMIT " (pyUpper "x LIMIT ") = true ∧
      (StreamQueryTool._invoke (fun _ => none) (some "x LIMIT ") none none
          { connectOk := true, tableRows := 0, columns := [], failAtFetch := none }).2.connects
        = 1 :=
  ⟨rfl, rfl⟩

/-- C5 (amended): for every request whose STRIPPED sql still contains
" LIMIT " or " OFFSET " (case-insensitive, space-delimited), and whose
configuration builds, `streamQuery` yields exactly the policy failure
envelope and never opens a connection. -/
theorem stream_limit_offset_rejected_before_connect
    (creds : String → Option String) (sqlp : Option String) (bsp mrp : Option Int)
    (db : StreamQueryTool.StreamDb) (cfg : StreamQueryTool.Config)
    (hcfg : StreamQueryTool._build_config creds = .ok cfg)
    (h : pyIn " LIMIT " (pyUpper (pyStrip (sqlp.getD ""))) = true ∨
      pyIn " OFFSET " (pyUpper (pyStrip (sqlp.getD ""))) = true) :
    StreamQueryTool._invoke creds sqlp bsp mrp db =
        ([error_envelope StreamQueryTool.stream_violation_msg (sqlp.getD "")], noSession) ∧
      (StreamQueryTool._invoke creds sqlp bsp mrp db).2.connects = 0 := by
  have hne : ¬ pyStrip (sqlp.getD "") = "" := by
    intro he
    rw [he] at h
    exact absurd h (by decide)
  have hval : StreamQueryTool._validate_query (pyStrip (sqlp.getD "")) =
      .error StreamQueryTool.stream_violation_msg := by
    simp only [StreamQueryTool._validate_query]
    rcases h with h | h <;> simp [h]
  have hmain : StreamQueryTool._invoke creds sqlp bsp mrp db =
      ([error_envelope StreamQueryTool.stream_violation_msg (sqlp.getD "")], noSession) := by
    simp only [StreamQueryTool._invoke, hcfg]
    simp [hne, hval]
  exact ⟨hmain, by rw [hmain]; rfl⟩

/-- C5 witness: the amended statement at a concrete statement carrying a
LIMIT clause. -/
theorem stream_limit_offset_rejected_before_connect_witness :
    StreamQueryTool._invoke (fun _ => none) (some "SELECT * FROM t LIMIT 5") none none
        { connectOk := true, tableRows := 7, columns := ["id"], failAtFetch := none } =
        ([error_envelope StreamQueryTool.stream_violation_msg "SELECT * FROM t LIMIT 5"],
          noSession) ∧
      (StreamQueryTool._invoke (fun _ => none) (some "SELECT * FROM t LIMIT 5") none none
          { connectOk := true, tableRows := 7, columns := ["id"], failAtFetch := none }).2.connects
        = 0 :=
  stream_limit_offset_rejected_before_connect (fun _ => none)
    (some "SELECT * FROM t LIMIT 5") none none
    { connectOk := true, tableRows := 7, columns := ["id"], failAtFetch := none }
    streamCfgDefault rfl (Or.inl (by decide))

/-! ## C10 (amended part) -/

/-- C10 (amended): for every request whose sql parameter is absent,
empty, or whitespace-only, PROVIDED the credential mapping's integer
fields parse (so `_build_config` succeeds), both tools yield exactly the
plain text message and open no connection. -/
theorem empty_sql_plain_text_no_connect
    (creds : String → Option String) (sqlp : Option String) (params : List String)
    (edb : ExecuteQueryTool.ExecDb) (bsp mrp : Option Int)
    (sdb : StreamQueryTool.StreamDb)
    (ecfg : ExecuteQueryTool.Config) (scfg : StreamQueryTool.Config)
    (he : ExecuteQueryTool._build_config creds = .ok ecfg)
    (hs : StreamQueryTool._build_config creds = .ok scfg)
    (hsql : pyStrip (sqlp.getD "") = "") :
    ExecuteQueryTool._invoke creds sqlp params edb =
        ([Msg.text "Error: SQL query is required"], noSession) ∧
      StreamQueryTool._invoke creds sqlp bsp mrp sdb =
        ([Msg.text "Error: SQL query is required"], noSession) := by
  constructor
  · simp only [ExecuteQueryTool._invoke, he]
    simp [hsql]
  · simp only [StreamQueryTool._invoke, hs]
    simp [hsql]

/-- C10 witness: the amended statement for a whitespace-only sql request
under the empty credential mapping. -/
theorem empty_sql_plain_text_no_connect_witness :
    ExecuteQueryTool._invoke (fun _ => none) (some "   ") []
        { connectOk := true, queryResult := .ok ([], []) } =
        ([Msg.text "Error: SQL query is required"], noSession) ∧
      StreamQueryTool._invoke (fun _ => none) (some "   ") none none
        { connectOk := true, tableRows := 3, columns := [], failAtFetch := none } =
        ([Msg.text "Error: SQL query is required"], noSession) :=
  empty_sql_plain_text_no_connect (fun _ => none) (some "   ") []
    { connectOk := true, queryResult := .ok ([], []) } none none
    { connectOk := true, tableRows := 3, columns := [], failAtFetch := none }
    execCfgDefault streamCfgDefault rfl rfl rfl

/-! ## C3 -/

/-- C3: the connection is closed exactly once on every exit path.  For
the session bodies: when the connect succeeds the run ends with exactly
one connect and exactly one close (whatever the query/fetch outcome and
whatever batch/limit parameters), and with neither when the handshake
fails.  For the full tool boundaries (which add the paths that never
connect: config failure, empty sql, guard rejection): the number of
closes always equals the number of connects, which never exceeds one —
the session is never left open and never closed twice. -/
theorem connection_closed_exactly_once
    (creds creds' : String → Option String) (sqlp sqlp' : Option String)
    (params : List String) (edb : ExecuteQueryTool.ExecDb)
    (bsp mrp : Option Int) (sdb : StreamQueryTool.StreamDb)
    (sql sql' : String) (ecfg : ExecuteQueryTool.Config) (scfg : StreamQueryTool.Config)
    (bs : Nat) (mr : Option Nat) :
    ((ExecuteQueryTool._execute_query sql params edb ecfg).1 =
        (if edb.connectOk = true then ⟨true, 1, 1⟩ else noSession)) ∧
      ((StreamQueryTool._stream_query sql' bs mr sdb scfg).1 =
        (if sdb.connectOk = true then ⟨true, 1, 1⟩ else noSession)) ∧
      ((ExecuteQueryTool._invoke creds sqlp params edb).2.closes =
          (ExecuteQueryTool._invoke creds sqlp params edb).2.connects ∧
        (ExecuteQueryTool._invoke creds sqlp params edb).2.connects ≤ 1) ∧
      ((StreamQueryTool._invoke creds' sqlp' bsp mrp sdb).2.closes =
          (StreamQueryTool._invoke creds' sqlp' bsp mrp sdb).2.connects ∧
        (StreamQueryTool._invoke creds' sqlp' bsp mrp sdb).2.connects ≤ 1) := by
  have hexec : ∀ (s : String) (ps : List String) (cfg : ExecuteQueryTool.Config),
      (ExecuteQueryTool._execute_query s ps edb cfg).1 =
        (if edb.connectOk = true then ⟨true, 1, 1⟩ else noSession) := by
    intro s ps cfg
    unfold ExecuteQueryTool._execute_query
    cases h : edb.connectOk
    · simp [closeIfOpen, noSession]
    · cases hq : edb.queryResult <;> simp [hq, closeIfOpen]
  have hstream : ∀ (s : String) (bs' : Nat) (mr' : Option Nat) (cfg : StreamQueryTool.Config),
      (StreamQueryTool._stream_query s bs' mr' sdb cfg).1 =
        (if sdb.connectOk = true then ⟨true, 1, 1⟩ else noSession) := by
    intro s bs' mr' cfg
    unfold StreamQueryTool._stream_query
    cases h : sdb.connectOk <;> simp [closeIfOpen, noSession]
  refine ⟨hexec sql params ecfg, hstream sql' bs mr scfg, ?_, ?_⟩
  · unfold ExecuteQueryTool._invoke
    cases hb : ExecuteQueryTool._build_config creds with
    | error e => simp [noSession]
    | ok config =>
      by_cases hs : pyStrip (sqlp.getD "") = ""
      · simp [hs, noSession]
      · simp only [hs, if_false]
        cases hv : ExecuteQueryTool._validate_readonly_query (pyStrip (sqlp.getD "")) config with
        | error e => simp [hv, noSession]
        | ok u =>
          simp only [hv]
          cases hr : (ExecuteQueryTool._execute_query (pyStrip (sqlp.getD "")) params edb config).2 <;>
            simp [hr, hexec _ _ config] <;> cases edb.connectOk <;> simp [noSession]
  · unfold StreamQueryTool._invoke
    cases hb : StreamQueryTool._build_config creds' with
    | error e => simp [noSession]
    | ok config =>
      by_cases hs : pyStrip (sqlp'.getD "") = ""
      · simp [hs, noSession]
      · simp only [hs, if_false]
        cases hv : StreamQueryTool._validate_query (pyStrip (sqlp'.getD "")) with
        | error e => simp [hv, noSession]
        | ok u =>
          simp only [hv]
          simp [hstream _ _ _ config]
          cases sdb.connectOk <;> simp [noSession]

/-! ## C8 -/

/-- C8: every message either tool yields satisfies the envelope
invariant: a JSON envelope populates exactly one of the success payload
and the error field (success envelopes carry a payload and no error,
failure envelopes carry an error and no payload; no partial data is ever
mixed into an error envelope).  Both `_invoke` functions are total Lean
functions — every raised failure is absorbed at the boundary into a
failure envelope, and none propagates to the caller. -/
theorem failure_envelope_invariant
    (creds creds' : String → Option String) (sqlp sqlp' : Option String)
    (params : List String) (edb : ExecuteQueryTool.ExecDb)
    (bsp mrp : Option Int) (sdb : StreamQueryTool.StreamDb) :
    (ExecuteQueryTool._invoke creds sqlp params edb).1.all envOk = true ∧
      (StreamQueryTool._invoke creds' sqlp' bsp mrp sdb).1.all envOk = true := by
  constructor
  · unfold ExecuteQueryTool._invoke
    cases hb : ExecuteQueryTool._build_config creds with
    | error e => simp [envOk, error_envelope]
    | ok config =>
      by_cases hs : pyStrip (sqlp.getD "") = ""
      · simp [hs, envOk]
      · simp only [hs, if_false]
        cases hv : ExecuteQueryTool._validate_readonly_query (pyStrip (sqlp.getD "")) config with
        | error e => simp [envOk, error_envelope]
        | ok u =>
          simp only []
          cases hr : (ExecuteQueryTool._execute_query (pyStrip (sqlp.getD "")) params edb config).2 <;>
            simp [hr, envOk, error_envelope, ExecuteQueryTool._format_result]
  · unfold StreamQueryTool._invoke
    cases hb : StreamQueryTool._build_config creds' with
    | error e => simp [envOk, error_envelope]
    | ok config =>
      by_cases hs : pyStrip (sqlp'.getD "") = ""
      · simp [hs, envOk]
      · simp only [hs, if_false]
        cases hv : StreamQueryTool._validate_query (pyStrip (sqlp'.getD "")) with
        | error e => simp [envOk, error_envelope]
        | ok u =>
          simp only [hv]
          cases he : (StreamQueryTool._stream_query (pyStrip (sqlp'.getD ""))
              (min (max (bsp.getD 1000) 1) 10000).toNat
              ((mrp.map (fun m => max m 1)).map Int.toNat) sdb config).2.2 <;>
            simp [he, envOk, error_envelope, StreamQueryTool.batch_message,
              List.all_append, List.all_map, Function.comp, List.all_eq_true]

/-! ## C9 -/

/-- One unfold of the fetch loop when the fetch is full
(`min bs (N - offset) = bs`), no row cap is set and no failure is
scheduled: the loop emits a full batch with `has_more = true` and
continues. -/
theorem stream_loop_step (N bs fuel fetch_idx offset bn total : Nat)
    (hbs : 0 < bs) (hmin : min bs (N - offset) = bs) :
    StreamQueryTool._stream_loop N bs none none (fuel + 1) fetch_idx offset bn total =
      ((⟨bn + 1, bs, total + bs, true⟩ : Batch) ::
        (StreamQueryTool._stream_loop N bs none none fuel (fetch_idx + 1) (offset + bs)
          (bn + 1) (total + bs)).1,
       (StreamQueryTool._stream_loop N bs none none fuel (fetch_idx + 1) (offset + bs)
          (bn + 1) (total + bs)).2) := by
  simp [StreamQueryTool._stream_loop, hmin, Nat.pos_iff_ne_zero.mp hbs]

/-- One unfold of the fetch loop when the fetch returns zero rows: the
loop terminates without emitting a further batch and without error. -/
theorem stream_loop_exhaust (N bs : Nat) (mr : Option Nat)
    (fuel fetch_idx offset bn total : Nat)
    (hmin : min bs (N - offset) = 0) :
    StreamQueryTool._stream_loop N bs mr none (fuel + 1) fetch_idx offset bn total =
      ([], none) := by
  simp [StreamQueryTool._stream_loop, hmin]

/-- When no row cap is set, the remaining row count is a positive
multiple of the batch size and the fuel suffices, the loop emits at
least one batch, every emitted batch has `has_more = true`, and the loop
terminates without error (via an empty fetch). -/
theorem stream_loop_full_batches (bs : Nat) (hbs : 0 < bs) :
    ∀ k, 0 < k → ∀ N fuel fetch_idx offset bn total, N - offset = k * bs → k + 1 ≤ fuel →
      (StreamQueryTool._stream_loop N bs none none fuel fetch_idx offset bn total).1 ≠ [] ∧
        (∀ b ∈ (StreamQueryTool._stream_loop N bs none none fuel fetch_idx offset bn total).1,
          b.has_more = true) ∧
        (StreamQueryTool._stream_loop N bs none none fuel fetch_idx offset bn total).2 = none := by
  intro k
  induction k with
  | zero => intro h; exact absurd h (lt_irrefl 0)
  | succ k ih =>
    intro _ N fuel fetch_idx offset bn total hsub hfuel
    obtain ⟨fuel', rfl⟩ : ∃ f, fuel = f + 1 := ⟨fuel - 1, by omega⟩
    obtain ⟨K, hK⟩ : ∃ K, k * bs = K := ⟨_, rfl⟩
    have hkbs : N - offset = K + bs := by rw [hsub, Nat.succ_mul, hK]
    have hmin : min bs (N - offset) = bs := by
      rw [hkbs]; exact Nat.min_eq_left (by omega)
    rw [stream_loop_step N bs fuel' fetch_idx offset bn total hbs hmin]
    by_cases hk : k = 0
    · subst hk
      have hK0 : K = 0 := by rw [← hK]; ring
      have hz : min bs (N - (offset + bs)) = 0 := by
        have hzero : N - (offset + bs) = 0 := by omega
        rw [hzero]; exact Nat.min_zero bs
      obtain ⟨fuel'', rfl⟩ : ∃ f, fuel' = f + 1 := ⟨fuel' - 1, by omega⟩
      rw [stream_loop_exhaust N bs none fuel'' (fetch_idx + 1) (offset + bs) (bn + 1)
        (total + bs) hz]
      refine ⟨by simp, ?_, rfl⟩
      intro b hb
      rcases List.mem_cons.mp hb with h | h
      · subst h; rfl
      · exact absurd h (List.not_mem_nil b)
    · have hrec := ih (Nat.pos_of_ne_zero hk) N fuel' (fetch_idx + 1) (offset + bs) (bn + 1)
        (total + bs) (by rw [hK]; omega) (by omega)
      refine ⟨by simp, ?_, hrec.2.2⟩
      intro b hb
      rcases List.mem_cons.mp hb with h | h
      · subst h; rfl
      · exact hrec.2.1 b h

/-- C9: when the table's row count is a nonzero multiple of the batch
size and no row cap is set, the stream emits at least one batch, the
LAST emitted batch still carries `has_more = true`, and the stream then
terminates without error via an empty fetch that emits no further batch
— so `has_more = false` on the final emitted batch is not guaranteed at
the public interface. -/
theorem full_multiple_last_batch_has_more (N bs k : Nat) (sql : String)
    (cfg : StreamQueryTool.Config) (db : StreamQueryTool.StreamDb)
    (hbs : 0 < bs) (hk : 0 < k) (hN : N = k * bs)
    (hc : db.connectOk = true) (hr : db.tableRows = N) (hf : db.failAtFetch = none) :
    (StreamQueryTool._stream_query sql bs none db cfg).2.1 ≠ [] ∧
      ((StreamQueryTool._stream_query sql bs none db cfg).2.1.getLast?.map Batch.has_more =
        some true) ∧
      (StreamQueryTool._stream_query sql bs none db cfg).2.2 = none := by
  have hkN : k + 1 ≤ N + 1 := by
    have hle : k ≤ k * bs := Nat.le_mul_of_pos_right k hbs
    omega
  have hloop := stream_loop_full_batches bs hbs k hk N (N + 1) 1 0 0 0
    (by rw [Nat.sub_zero]; exact hN) hkN
  have hq : StreamQueryTool._stream_query sql bs none db cfg =
      (⟨true, 1, 1⟩,
        (StreamQueryTool._stream_loop N bs none none (N + 1) 1 0 0 0).1,
        (StreamQueryTool._stream_loop N bs none none (N + 1) 1 0 0 0).2) := by
    unfold StreamQueryTool._stream_query
    simp [hc, hr, hf, closeIfOpen]
  rw [hq]
  refine ⟨hloop.1, ?_, hloop.2.2⟩
  have hne := hloop.1
  rw [List.getLast?_eq_getLast_of_ne_nil hne]
  exact congrArg some (hloop.2.1 _ (List.getLast_mem hne))

/-- C9 witness: a 2000-row table with batch size 1000 and no row cap
ends its emitted batches with `has_more = true`. -/
theorem full_multiple_last_batch_has_more_witness :
    (StreamQueryTool._stream_query "SELECT 1" 1000 none
        { connectOk := true, tableRows := 2000, columns := [], failAtFetch := none }
        streamCfgDefault).2.1 ≠ [] ∧
      ((StreamQueryTool._stream_query "SELECT 1" 1000 none
          { connectOk := true, tableRows := 2000, columns := [], failAtFetch := none }
          streamCfgDefault).2.1.getLast?.map Batch.has_more = some true) ∧
      (StreamQueryTool._stream_query "SELECT 1" 1000 none
          { connectOk := true, tableRows := 2000, columns := [], failAtFetch := none }
          streamCfgDefault).2.2 = none :=
  full_multiple_last_batch_has_more 2000 1000 2 "SELECT 1" streamCfgDefault
    { connectOk := true, tableRows := 2000, columns := [], failAtFetch := none }
    (by decide) (by decide) (by decide) rfl rfl rfl
